import Mathlib

/-!
Shallow embedding of the dynamic pricing engine of `src/sportai_pricing.py`
(functions `calculate_dynamic_price` lines 477-572, `calculate_demand_level`
lines 574-584, `apply_guardrails` lines 586-592).

Modelling conventions:
  - Python numbers (int/float) are modelled as exact rationals;
  - Python dicts are association lists of String keys with `.get` defaulting;
  - the booking date enters the computation only through
    `booking_date.weekday()` (0 = Monday .. 6 = Sunday), so it is embedded as
    that weekday number;
  - the single failing operation of the function, the division by `base_rate`
    on line 564 (Python raises ZeroDivisionError when `base_rate == 0`), is
    embedded by returning `Except.error`; every other operation is total;
  - numeric rendering inside the human-readable Explanation strings
    (Python format specifiers such as `:.2f`) is abstracted by `toString`;
    no claim inspects the numeric text of an explanation.
-/

namespace SportAI

/-- Python dict with string keys: association list, first binding wins. -/
abbrev Dict (α : Type) : Type := List (String × α)

/-- Python `d.get(k, dflt)`. -/
def dget {α : Type} (d : Dict α) (k : String) (dflt : α) : α :=
  (d.lookup k).getD dflt

/-- Substring test on code-point lists, scanning left to right. -/
def isSubstr (pat : List Char) : List Char → Bool
  | [] => pat.isEmpty
  | c :: rest => pat.isPrefixOf (c :: rest) || isSubstr pat rest

/-- Python substring test `pat in s`, over code points. -/
def strContains (s pat : String) : Bool :=
  isSubstr pat.data s.data

/-- Python `str.lower`, over code points (the keys in this program are
ASCII). -/
def pyLower (s : String) : String :=
  ⟨s.data.map Char.toLower⟩

/-- One left-to-right pass of Python `str.replace`: replace non-overlapping
occurrences of `pat` by `rep`, with fuel bounding the recursion depth. -/
def replaceAux (pat rep : List Char) : Nat → List Char → List Char
  | _, [] => []
  | 0, l => l
  | Nat.succ n, c :: rest =>
      if pat.isPrefixOf (c :: rest)
      then rep ++ replaceAux pat rep n (List.drop pat.length (c :: rest))
      else c :: replaceAux pat rep n rest

/-- Python `str.replace(pat, rep)` for the non-empty patterns this program
uses (`" - "`, `" "`, `"-"`): replace all non-overlapping occurrences,
scanning left to right. -/
def pyReplace (s pat rep : String) : String :=
  if pat.data.isEmpty then s
  else ⟨replaceAux pat.data rep.data s.data.length s.data⟩

/-- Python `str.title` restricted to the single lowercase words produced by
`calculate_demand_level` (`high`, `medium`, `low`); on those it coincides
with uppercasing the first code point. -/
def pyTitle (s : String) : String :=
  ⟨match s.data with
   | [] => []
   | c :: rest => c.toUpper :: rest⟩

/-- One row of the explainability waterfall: the dict
`{Factor: ..., Impact: ..., Explanation: ...}` built by
`calculate_dynamic_price`. -/
structure Factor where
  factor : String
  impact : ℚ
  explanation : String
deriving DecidableEq

/-- The dict returned by `calculate_dynamic_price` (lines 566-572). -/
structure PriceQuote where
  base_rate : ℚ
  dynamic_rate : ℚ
  final_price : ℚ
  adjustment_pct : ℚ
  factors : List Factor
deriving DecidableEq

/-- The `config_pricing` dict of the session.  Each field is the value of
`pricing_config.get(key, {})`; a session missing `config_pricing`
corresponds to all four tables empty. -/
structure PricingConfig where
  base_rates : Dict (Dict ℚ)
  demand_multipliers : Dict ℚ
  lead_time_discounts : Dict ℚ
  segments : Dict ℚ
deriving DecidableEq

/-- The `config_guardrails` dict of the session; only the key
`max_price_change_percent` is ever read (line 588), `none` models its
absence (default 25). -/
structure Guardrails where
  max_price_change_percent : Option ℚ
deriving DecidableEq

/-- The part of `context` read by `calculate_dynamic_price`:
`context["session"].get("config_pricing", {})` and
`context["session"].get("config_guardrails", {})`. -/
structure Ctx where
  config_pricing : PricingConfig
  config_guardrails : Guardrails
deriving DecidableEq

/-- The six positional inputs of `calculate_dynamic_price`; the booking date
is embedded as `booking_date.weekday()` (0 = Monday .. 6 = Sunday). -/
structure PriceInput where
  asset_type : String
  booking_weekday : Nat
  time_slot : String
  duration : ℚ
  customer_type : String
  lead_time_days : Int
deriving DecidableEq

/-- Line 492: `asset_type.lower().replace(" - ", "_").replace(" ", "_")`. -/
def asset_key_of (asset_type : String) : String :=
  pyReplace (pyReplace (pyLower asset_type) " - " "_") " " "_"

/-- Line 493: `"prime" if "Prime" in time_slot else "off_peak" if ("6am" in
time_slot or "9pm" in time_slot) else "standard"`. -/
def time_category_of (time_slot : String) : String :=
  if strContains time_slot "Prime" then "prime"
  else if strContains time_slot "6am" || strContains time_slot "9pm" then "off_peak"
  else "standard"

/-- Lines 574-584: demand level from the weekday of the booking date and the
time slot. -/
def calculate_demand_level (booking_weekday : Nat) (time_slot : String) : String :=
  if 5 ≤ booking_weekday then "high"
  else if strContains time_slot "Prime" then "medium"
  else "low"

/-- Lines 586-592: clamp `price` into
`[base_price * (1 - pct/100), base_price * (1 + pct/100)]` with
`pct = guardrails.get("max_price_change_percent", 25)`. -/
def apply_guardrails (price base_price : ℚ) (guardrails : Guardrails) : ℚ :=
  let max_change_pct := (guardrails.max_price_change_percent.getD 25) / 100
  let max_price := base_price * (1 + max_change_pct)
  let min_price := base_price * (1 - max_change_pct)
  max min_price (min max_price price)

/-- Line 495: `base_rates.get(asset_key, {}).get(time_category, 100)`. -/
def base_rate_of (inp : PriceInput) (cfg : PricingConfig) : ℚ :=
  dget (dget cfg.base_rates (asset_key_of inp.asset_type) [])
    (time_category_of inp.time_slot) 100

/-- Line 505: demand level of the input. -/
def demand_level_of (inp : PriceInput) : String :=
  calculate_demand_level inp.booking_weekday inp.time_slot

/-- Line 506: `demand_multipliers.get(demand_level, 1.0)`. -/
def demand_multiplier_of (inp : PriceInput) (cfg : PricingConfig) : ℚ :=
  dget cfg.demand_multipliers (demand_level_of inp) 1

/-- Line 507: `demand_impact = current_price * (demand_multiplier - 1)`, the
running price being `base_rate` at that point. -/
def demand_impact_of (inp : PriceInput) (cfg : PricingConfig) : ℚ :=
  base_rate_of inp cfg * (demand_multiplier_of inp cfg - 1)

/-- Lines 509-515: the running price after the demand step; the update
`current_price += demand_impact` happens only under `demand_impact != 0`. -/
def price_after_demand (inp : PriceInput) (cfg : PricingConfig) : ℚ :=
  if demand_impact_of inp cfg ≠ 0
  then base_rate_of inp cfg + demand_impact_of inp cfg
  else base_rate_of inp cfg

/-- Line 519: `"90_days" if lead_time_days >= 90 else "60_days" if
lead_time_days >= 60 else "30_days"`. -/
def lead_time_key_of (lead_time_days : Int) : String :=
  if 90 ≤ lead_time_days then "90_days"
  else if 60 ≤ lead_time_days then "60_days"
  else "30_days"

/-- Line 520: `lead_time_discounts.get(lead_time_key, 1.0)`. -/
def lead_discount_of (inp : PriceInput) (cfg : PricingConfig) : ℚ :=
  dget cfg.lead_time_discounts (lead_time_key_of inp.lead_time_days) 1

/-- Line 521: `lead_impact = current_price * (lead_discount - 1)`, the running
price being the price after the demand step. -/
def lead_impact_of (inp : PriceInput) (cfg : PricingConfig) : ℚ :=
  price_after_demand inp cfg * (lead_discount_of inp cfg - 1)

/-- Lines 517-528: the running price after the lead-time step, applied only
when `lead_time_days >= 30` (the update inside that branch is
unconditional). -/
def price_after_lead (inp : PriceInput) (cfg : PricingConfig) : ℚ :=
  if 30 ≤ inp.lead_time_days
  then price_after_demand inp cfg + lead_impact_of inp cfg
  else price_after_demand inp cfg

/-- Line 531: `customer_type.lower().replace("-", "_")`. -/
def segment_key_of (customer_type : String) : String :=
  pyReplace (pyLower customer_type) "-" "_"

/-- Line 532: `segments.get(segment_key, 1.0)`. -/
def segment_multiplier_of (inp : PriceInput) (cfg : PricingConfig) : ℚ :=
  dget cfg.segments (segment_key_of inp.customer_type) 1

/-- Line 533: `segment_impact = base_rate * (segment_multiplier - 1)` - off
the base rate, not the running price. -/
def segment_impact_of (inp : PriceInput) (cfg : PricingConfig) : ℚ :=
  base_rate_of inp cfg * (segment_multiplier_of inp cfg - 1)

/-- Lines 535-541: the running price after the segment step; the update
`current_price += segment_impact` happens only under `segment_impact != 0`. -/
def pre_guardrail_price (inp : PriceInput) (cfg : PricingConfig) : ℚ :=
  if segment_impact_of inp cfg ≠ 0
  then price_after_lead inp cfg + segment_impact_of inp cfg
  else price_after_lead inp cfg

/-- Line 546: the clamped running price, which line 568 returns as
`dynamic_rate`. -/
def dynamic_rate_of (inp : PriceInput) (cfg : PricingConfig) (gr : Guardrails) : ℚ :=
  apply_guardrails (pre_guardrail_price inp cfg) (base_rate_of inp cfg) gr

/-- Lines 498-500: the Base Rate factor row. -/
def baseFactor (inp : PriceInput) (cfg : PricingConfig) : Factor :=
  ⟨"Base Rate", base_rate_of inp cfg,
    inp.asset_type ++ " during " ++ time_category_of inp.time_slot ++ " time"⟩

/-- Lines 510-514: the demand factor row. -/
def demandFactor (inp : PriceInput) (cfg : PricingConfig) : Factor :=
  ⟨pyTitle (demand_level_of inp) ++ " Demand", demand_impact_of inp cfg,
    "Demand is " ++ demand_level_of inp ++ " for this date/time"⟩

/-- Lines 523-527: the Early Booking factor row. -/
def leadFactor (inp : PriceInput) (cfg : PricingConfig) : Factor :=
  ⟨"Early Booking", lead_impact_of inp cfg,
    toString inp.lead_time_days ++ " days advance notice earns discount"⟩

/-- Lines 536-540: the customer segment factor row. -/
def segmentFactor (inp : PriceInput) (cfg : PricingConfig) : Factor :=
  ⟨inp.customer_type ++ " Rate", segment_impact_of inp cfg,
    inp.customer_type ++ " customer segment pricing"⟩

/-- Lines 549-553: the Guardrail Cap factor row. -/
def capFactor (inp : PriceInput) (cfg : PricingConfig) (gr : Guardrails) : Factor :=
  ⟨"Guardrail Cap", dynamic_rate_of inp cfg gr - pre_guardrail_price inp cfg,
    "Price capped per policy limits"⟩

/-- Lines 558-562: the Final Price factor row. -/
def finalFactor (inp : PriceInput) (cfg : PricingConfig) (gr : Guardrails) : Factor :=
  ⟨"Final Price", dynamic_rate_of inp cfg gr * inp.duration,
    toString inp.duration ++ " hours × $" ++ toString (dynamic_rate_of inp cfg gr) ++ "/hr"⟩

/-- The ordered factor list built by lines 498-562: base rate, then the
conditionally appended demand / early-booking / segment / guardrail rows, then
the final price row. -/
def factors_of (inp : PriceInput) (cfg : PricingConfig) (gr : Guardrails) : List Factor :=
  [baseFactor inp cfg]
    ++ (if demand_impact_of inp cfg ≠ 0 then [demandFactor inp cfg] else [])
    ++ (if 30 ≤ inp.lead_time_days then [leadFactor inp cfg] else [])
    ++ (if segment_impact_of inp cfg ≠ 0 then [segmentFactor inp cfg] else [])
    ++ (if dynamic_rate_of inp cfg gr ≠ pre_guardrail_price inp cfg
        then [capFactor inp cfg gr] else [])
    ++ [finalFactor inp cfg gr]

/-- The dict built by lines 555-572, total because rational division is; the
Python division on line 564 raises exactly when `base_rate = 0`, which
`calculate_dynamic_price` accounts for. -/
def quoteOf (inp : PriceInput) (ctx : Ctx) : PriceQuote :=
  let cfg := ctx.config_pricing
  let gr := ctx.config_guardrails
  ⟨base_rate_of inp cfg,
   dynamic_rate_of inp cfg gr,
   dynamic_rate_of inp cfg gr * inp.duration,
   ((dynamic_rate_of inp cfg gr - base_rate_of inp cfg) / base_rate_of inp cfg) * 100,
   factors_of inp cfg gr⟩

/-- Lines 477-572: the full calculation.  The only failing path of the Python
function is the division by `base_rate` on line 564, raising
ZeroDivisionError when the looked-up base rate is 0; every other lookup
degrades to a default. -/
def calculate_dynamic_price (inp : PriceInput) (ctx : Ctx) : Except String PriceQuote :=
  if base_rate_of inp ctx.config_pricing = 0
  then Except.error "ZeroDivisionError: division by zero"
  else Except.ok (quoteOf inp ctx)

/-- State-threading embedding for the frame property: the two context reads
(line 489 `context["session"].get("config_pricing", {})` and line 544
`context["session"].get("config_guardrails", {})`) are Python dict reads,
which do not mutate; every other step is arithmetic on locals.  The context
is threaded through both accesses and returned alongside the result. -/
def calculate_dynamic_price_st (inp : PriceInput) (ctx : Ctx) :
    Except String PriceQuote × Ctx :=
  let (pricing_config, ctx) := (ctx.config_pricing, ctx)
  let (guardrails, ctx) := (ctx.config_guardrails, ctx)
  (if base_rate_of inp pricing_config = 0
   then Except.error "ZeroDivisionError: division by zero"
   else Except.ok
     ⟨base_rate_of inp pricing_config,
      dynamic_rate_of inp pricing_config guardrails,
      dynamic_rate_of inp pricing_config guardrails * inp.duration,
      ((dynamic_rate_of inp pricing_config guardrails - base_rate_of inp pricing_config)
          / base_rate_of inp pricing_config) * 100,
      factors_of inp pricing_config guardrails⟩,
   ctx)

/-- The three price adjustment steps of the waterfall (lines 504-541), as
reorderable operations on the running price: demand and lead-time act on the
running price at the moment they fire, the segment step always adds
`base_rate * (segment_multiplier - 1)`. -/
inductive AdjStep where
  | demand : AdjStep
  | lead : AdjStep
  | segment : AdjStep
deriving DecidableEq

/-- Apply one adjustment step to a running price `p`, with the same guards as
the source: the demand and segment updates fire only when their impact is
nonzero, the lead-time update only when `lead_time_days >= 30`. -/
def applyStep (inp : PriceInput) (cfg : PricingConfig) : AdjStep → ℚ → ℚ
  | AdjStep.demand, p =>
      let i := p * (demand_multiplier_of inp cfg - 1)
      if i ≠ 0 then p + i else p
  | AdjStep.lead, p =>
      if 30 ≤ inp.lead_time_days
      then p + p * (lead_discount_of inp cfg - 1)
      else p
  | AdjStep.segment, p =>
      let i := base_rate_of inp cfg * (segment_multiplier_of inp cfg - 1)
      if i ≠ 0 then p + i else p

/-- Apply a list of adjustment steps left to right. -/
def runSteps (inp : PriceInput) (cfg : PricingConfig) : List AdjStep → ℚ → ℚ
  | [], p => p
  | s :: rest, p => runSteps inp cfg rest (applyStep inp cfg s p)

/-- The order in which the source applies the steps (lines 504-541). -/
def sourceOrder : List AdjStep := [AdjStep.demand, AdjStep.lead, AdjStep.segment]

/-- An empty pricing configuration: every lookup falls back to its default. -/
def emptyCfg : PricingConfig := ⟨[], [], [], []⟩

/-- Concrete input used against claim C1: weekday Monday, plain slot, no
lead time, unknown segment. -/
def c1inp : PriceInput := ⟨"Court", 0, "9am-12pm", 1, "Regular", 0⟩

/-- Context whose guardrails carry a negative `max_price_change_percent`. -/
def c1ctx : Ctx := ⟨emptyCfg, ⟨some (-50)⟩⟩

/-- Concrete input for the C1 witness. -/
def c1winp : PriceInput := ⟨"Gym", 1, "3pm-6pm", 2, "Member", 5⟩

/-- Default context: empty tables, absent guardrail key (default 25). -/
def c1wctx : Ctx := ⟨emptyCfg, ⟨none⟩⟩

/-- Concrete input used against claim C2. -/
def c2inp : PriceInput := ⟨"Court", 0, "9am-12pm", 2, "Regular", 0⟩

/-- Context whose rate table maps the looked-up key to a base rate of 0. -/
def c2ctx : Ctx := ⟨⟨[("court", [("standard", 0)])], [], [], []⟩, ⟨none⟩⟩

/-- Concrete input for the C2 witness. -/
def c2winp : PriceInput := ⟨"Suite", 4, "6pm-9pm (Prime)", 3, "Non-Profit", 2⟩

/-- Default context for the C2 witness. -/
def c2wctx : Ctx := ⟨emptyCfg, ⟨none⟩⟩

/-- Concrete input used against claim C3: Saturday, 95 days of lead time. -/
def c3inp : PriceInput := ⟨"Court", 5, "9am-12pm", 1, "Corporate", 95⟩

/-- Configuration with a demand multiplier, a lead-time discount and a
segment multiplier all different from 1. -/
def c3cfg : PricingConfig := ⟨[], [("high", 6/5)], [("90_days", 9/10)], [("corporate", 23/20)]⟩

/-- Concrete input for the C4 witness. -/
def c4winp : PriceInput := ⟨"Turf Field - Full", 2, "6pm-9pm (Prime)", 2, "Member", 40⟩

/-- Default context for the C4 witness. -/
def c4wctx : Ctx := ⟨emptyCfg, ⟨none⟩⟩

/-- Concrete input for the C5 witness: none of its keys is configured. -/
def c5winp : PriceInput := ⟨"Hockey Rink", 3, "noon", 1, "Wholesale", 12⟩

/-- Configuration with only a 90-day lead-time discount, for C6. -/
def c6cfg : PricingConfig := ⟨[], [], [("90_days", 9/10)], []⟩

/-- Default guardrails (absent key). -/
def defGr : Guardrails := ⟨none⟩

/-- C6 witness input with lead time below 30 days. -/
def c6winpA : PriceInput := ⟨"Court", 0, "9am-12pm", 1, "Regular", 10⟩

/-- C6 witness input with lead time of 95 days. -/
def c6winpB : PriceInput := ⟨"Court", 0, "9am-12pm", 1, "Regular", 95⟩

/-- C8 witness input: corporate segment pushes the price beyond the cap. -/
def c8winp : PriceInput := ⟨"Court", 0, "9am-12pm", 1, "Corporate", 0⟩

/-- Configuration with a corporate segment multiplier of 1.5, for C8. -/
def c8cfg : PricingConfig := ⟨[], [], [], [("corporate", 3/2)]⟩

/-- C10 witness input: 45 days of lead time, everything else defaulted. -/
def c10winp : PriceInput := ⟨"Court", 0, "9am-12pm", 1, "Regular", 45⟩

end SportAI

namespace SportAI

/-- A string append keeps the last code point of its right part. -/
theorem getLast_append_str (s t : String) (h : t.data ≠ []) :
    (s ++ t).data.getLast? = t.data.getLast? := by
  rw [String.data_append]
  exact List.getLast?_append_of_ne_nil _ h

/-- Strings with different last code points differ. -/
theorem str_ne_of_getLast (s t : String)
    (h : s.data.getLast? ≠ t.data.getLast?) : s ≠ t :=
  fun he => h (by rw [he])

/-- An append whose right part ends in a different code point than `u` is not
`u`. -/
theorem append_ne_of_getLast (s t u : String)
    (ht : t.data ≠ []) (h : t.data.getLast? ≠ u.data.getLast?) : s ++ t ≠ u := by
  apply str_ne_of_getLast
  rw [getLast_append_str s t ht]
  exact h

/-- Two appends whose right parts end in different code points differ. -/
theorem append_ne_append_of_getLast (s t u v : String)
    (ht : t.data ≠ []) (hv : v.data ≠ [])
    (h : t.data.getLast? ≠ v.data.getLast?) : s ++ t ≠ u ++ v := by
  apply str_ne_of_getLast
  rw [getLast_append_str s t ht, getLast_append_str u v hv]
  exact h

/-- Membership in a conditional singleton. -/
theorem mem_ite_singleton {α : Type} (x f : α) (c : Prop) [Decidable c] :
    (x ∈ if c then [f] else ([] : List α)) ↔ c ∧ x = f := by
  split <;> simp_all

/-- Complete case analysis of membership in the factor waterfall. -/
theorem mem_factors_iff (inp : PriceInput) (cfg : PricingConfig) (gr : Guardrails)
    (x : Factor) :
    x ∈ factors_of inp cfg gr ↔
      x = baseFactor inp cfg ∨
      (demand_impact_of inp cfg ≠ 0 ∧ x = demandFactor inp cfg) ∨
      (30 ≤ inp.lead_time_days ∧ x = leadFactor inp cfg) ∨
      (segment_impact_of inp cfg ≠ 0 ∧ x = segmentFactor inp cfg) ∨
      (dynamic_rate_of inp cfg gr ≠ pre_guardrail_price inp cfg ∧ x = capFactor inp cfg gr) ∨
      x = finalFactor inp cfg gr := by
  simp only [factors_of, List.mem_append, List.mem_singleton, mem_ite_singleton, or_assoc]

/-- The demand step multiplies the base rate by the demand multiplier, also
when the guarded update does not fire. -/
theorem price_after_demand_eq (inp : PriceInput) (cfg : PricingConfig) :
    price_after_demand inp cfg = base_rate_of inp cfg * demand_multiplier_of inp cfg := by
  unfold price_after_demand
  split
  · unfold demand_impact_of
    ring
  · rename_i h
    have h0 : demand_impact_of inp cfg = 0 := not_not.mp h
    unfold demand_impact_of at h0
    have : base_rate_of inp cfg * demand_multiplier_of inp cfg =
        base_rate_of inp cfg + base_rate_of inp cfg * (demand_multiplier_of inp cfg - 1) := by
      ring
    rw [this, h0, add_zero]

/-- The lead-time step multiplies the running price by the discount exactly
when the lead time qualifies. -/
theorem price_after_lead_eq (inp : PriceInput) (cfg : PricingConfig) :
    price_after_lead inp cfg =
      price_after_demand inp cfg *
        (if 30 ≤ inp.lead_time_days then lead_discount_of inp cfg else 1) := by
  unfold price_after_lead lead_impact_of
  split
  · ring
  · ring

/-- The segment step always adds its impact, also when the guarded update
does not fire. -/
theorem pre_guardrail_eq (inp : PriceInput) (cfg : PricingConfig) :
    pre_guardrail_price inp cfg = price_after_lead inp cfg + segment_impact_of inp cfg := by
  unfold pre_guardrail_price
  split
  · rfl
  · rename_i h
    rw [not_not.mp h, add_zero]

/-- The calculation returns a quote exactly when the looked-up base rate is
nonzero, and the quote is `quoteOf`. -/
theorem calc_ok_iff (inp : PriceInput) (ctx : Ctx) (q : PriceQuote) :
    calculate_dynamic_price inp ctx = Except.ok q ↔
      base_rate_of inp ctx.config_pricing ≠ 0 ∧ q = quoteOf inp ctx := by
  unfold calculate_dynamic_price
  split
  · rename_i h
    simp [h]
  · rename_i h
    simp [h, eq_comm]

/-- The demand step on an arbitrary running price is multiplication by the
demand multiplier. -/
theorem applyStep_demand (inp : PriceInput) (cfg : PricingConfig) (p : ℚ) :
    applyStep inp cfg AdjStep.demand p = p * demand_multiplier_of inp cfg := by
  simp only [applyStep]
  split
  · ring
  · rename_i h
    have h0 : p * (demand_multiplier_of inp cfg - 1) = 0 := not_not.mp h
    have : p * demand_multiplier_of inp cfg =
        p + p * (demand_multiplier_of inp cfg - 1) := by ring
    rw [this, h0, add_zero]

/-- The lead-time step on an arbitrary running price is multiplication by the
discount when the lead time qualifies. -/
theorem applyStep_lead (inp : PriceInput) (cfg : PricingConfig) (p : ℚ) :
    applyStep inp cfg AdjStep.lead p =
      if 30 ≤ inp.lead_time_days then p * lead_discount_of inp cfg else p := by
  simp only [applyStep]
  split
  · ring
  · rfl

/-- The segment step on an arbitrary running price adds the base-rate-scaled
segment impact. -/
theorem applyStep_segment (inp : PriceInput) (cfg : PricingConfig) (p : ℚ) :
    applyStep inp cfg AdjStep.segment p = p + segment_impact_of inp cfg := by
  simp only [applyStep, segment_impact_of]
  split
  · rfl
  · rename_i h
    rw [not_not.mp h, add_zero]

/-- The running price of the source waterfall is the source-ordered step
sequence applied to the base rate. -/
theorem pre_eq_runSteps (inp : PriceInput) (cfg : PricingConfig) :
    pre_guardrail_price inp cfg = runSteps inp cfg sourceOrder (base_rate_of inp cfg) := by
  simp only [sourceOrder, runSteps, applyStep_demand, applyStep_lead, applyStep_segment]
  rw [pre_guardrail_eq, price_after_lead_eq, price_after_demand_eq]
  split <;> ring

/-- Clamp bounds of `apply_guardrails` under nonnegative base rate and
percent. -/
theorem apply_guardrails_bounds (price base : ℚ) (gr : Guardrails)
    (hg : 0 ≤ gr.max_price_change_percent.getD 25) (hb : 0 ≤ base) :
    base * (1 - gr.max_price_change_percent.getD 25 / 100) ≤ apply_guardrails price base gr ∧
    apply_guardrails price base gr ≤ base * (1 + gr.max_price_change_percent.getD 25 / 100) := by
  unfold apply_guardrails
  have hc : 0 ≤ gr.max_price_change_percent.getD 25 / 100 := by positivity
  have hmm : base * (1 - gr.max_price_change_percent.getD 25 / 100) ≤
      base * (1 + gr.max_price_change_percent.getD 25 / 100) := by nlinarith
  constructor
  · exact le_max_left _ _
  · exact max_le hmm (min_le_left _ _)

end SportAI

namespace SportAI

/-- Claim C1 (as stated, over any configured tables and guardrails) fails: with
`max_price_change_percent = -50` and otherwise empty configuration, the
returned quote has `base_rate = 100` and `dynamic_rate = 150`, which is not
within `[base_rate*(1-g), base_rate*(1+g)] = [150, 50]` because the upper
bound `base_rate*(1+g) = 50` is violated. -/
theorem claim_C1_counterexample :
    calculate_dynamic_price c1inp c1ctx = Except.ok (quoteOf c1inp c1ctx) ∧
    (quoteOf c1inp c1ctx).base_rate = 100 ∧
    (quoteOf c1inp c1ctx).dynamic_rate = 150 ∧
    ¬ ((quoteOf c1inp c1ctx).dynamic_rate ≤
        (quoteOf c1inp c1ctx).base_rate *
          (1 + c1ctx.config_guardrails.max_price_change_percent.getD 25 / 100)) := by
  have hb : base_rate_of c1inp c1ctx.config_pricing = 100 := rfl
  have hpre : pre_guardrail_price c1inp c1ctx.config_pricing = 100 := by
    rw [pre_guardrail_eq, price_after_lead_eq, price_after_demand_eq]
    have hm : demand_multiplier_of c1inp c1ctx.config_pricing = 1 := rfl
    have hd : lead_discount_of c1inp c1ctx.config_pricing = 1 := rfl
    have hs : segment_impact_of c1inp c1ctx.config_pricing = 0 := by
      unfold segment_impact_of
      have hs1 : segment_multiplier_of c1inp c1ctx.config_pricing = 1 := rfl
      rw [hs1]
      ring
    rw [hm, hd, hb, hs]
    norm_num
  have hg : c1ctx.config_guardrails.max_price_change_percent = some (-50) := rfl
  have hdyn : (quoteOf c1inp c1ctx).dynamic_rate = 150 := by
    show dynamic_rate_of c1inp c1ctx.config_pricing c1ctx.config_guardrails = 150
    unfold dynamic_rate_of apply_guardrails
    rw [hpre, hb, hg]
    norm_num [max_def, min_def]
  refine ⟨rfl, rfl, hdyn, ?_⟩
  rw [hdyn, hg]
  show ¬ ((150 : ℚ) ≤ base_rate_of c1inp c1ctx.config_pricing * (1 + (some (-50 : ℚ)).getD 25 / 100))
  rw [hb]
  norm_num

/-- Claim C1 amended: whenever the configured (or defaulted)
`max_price_change_percent` is nonnegative and the looked-up base rate is
nonnegative, the returned `dynamic_rate` lies within
`[base_rate*(1-g), base_rate*(1+g)]` with
`g = max_price_change_percent/100`. -/
theorem claim_C1_amended (inp : PriceInput) (ctx : Ctx)
    (hg : 0 ≤ ctx.config_guardrails.max_price_change_percent.getD 25)
    (hb : 0 ≤ base_rate_of inp ctx.config_pricing)
    (q : PriceQuote) (hq : calculate_dynamic_price inp ctx = Except.ok q) :
    q.base_rate * (1 - ctx.config_guardrails.max_price_change_percent.getD 25 / 100) ≤
        q.dynamic_rate ∧
      q.dynamic_rate ≤
        q.base_rate * (1 + ctx.config_guardrails.max_price_change_percent.getD 25 / 100) := by
  obtain ⟨-, rfl⟩ := (calc_ok_iff inp ctx q).mp hq
  exact apply_guardrails_bounds _ _ _ hg hb

/-- Witness for the amended C1 at a concrete input with default guardrails. -/
theorem claim_C1_witness :
    (quoteOf c1winp c1wctx).base_rate *
        (1 - c1wctx.config_guardrails.max_price_change_percent.getD 25 / 100) ≤
      (quoteOf c1winp c1wctx).dynamic_rate ∧
    (quoteOf c1winp c1wctx).dynamic_rate ≤
      (quoteOf c1winp c1wctx).base_rate *
        (1 + c1wctx.config_guardrails.max_price_change_percent.getD 25 / 100) := by
  apply claim_C1_amended c1winp c1wctx ?_ ?_ (quoteOf c1winp c1wctx) rfl
  · have h : c1wctx.config_guardrails.max_price_change_percent.getD 25 = 25 := rfl
    rw [h]
    norm_num
  · have h : base_rate_of c1winp c1wctx.config_pricing = 100 := rfl
    rw [h]
    norm_num

/-- Claim C2 (the function never fails) is refuted by a configured base rate
of 0: the Python division on line 564 raises ZeroDivisionError there. -/
theorem claim_C2_counterexample :
    calculate_dynamic_price c2inp c2ctx = Except.error "ZeroDivisionError: division by zero" :=
  rfl

/-- Claim C2 amended: the calculation returns a quote exactly when the
looked-up base rate is nonzero; all unknown lookups degrade to defaults, and
the only failure is the division by a base rate of 0 on line 564. -/
theorem claim_C2_amended (inp : PriceInput) (ctx : Ctx) :
    (∃ q, calculate_dynamic_price inp ctx = Except.ok q) ↔
      base_rate_of inp ctx.config_pricing ≠ 0 := by
  constructor
  · rintro ⟨q, hq⟩
    exact ((calc_ok_iff inp ctx q).mp hq).1
  · intro h
    exact ⟨quoteOf inp ctx, (calc_ok_iff inp ctx (quoteOf inp ctx)).mpr ⟨h, rfl⟩⟩

/-- Witness for the amended C2 at a concrete input with default tables. -/
theorem claim_C2_witness :
    ∃ q, calculate_dynamic_price c2winp c2wctx = Except.ok q :=
  (claim_C2_amended c2winp c2wctx).mpr (by decide)

/-- Claim C3 (order-independence of the final value) fails: the list
`[segment, demand, lead]` is a permutation of the source order, the source
waterfall equals the source-ordered step sequence, yet at a concrete input
the permuted sequence yields 621/5 instead of 123. -/
theorem claim_C3_counterexample :
    List.Perm [AdjStep.segment, AdjStep.demand, AdjStep.lead] sourceOrder ∧
    pre_guardrail_price c3inp c3cfg =
      runSteps c3inp c3cfg sourceOrder (base_rate_of c3inp c3cfg) ∧
    runSteps c3inp c3cfg [AdjStep.segment, AdjStep.demand, AdjStep.lead]
        (base_rate_of c3inp c3cfg) ≠
      runSteps c3inp c3cfg sourceOrder (base_rate_of c3inp c3cfg) := by
  have hm : demand_multiplier_of c3inp c3cfg = 6/5 := rfl
  have hd : lead_discount_of c3inp c3cfg = 9/10 := rfl
  have hs : segment_multiplier_of c3inp c3cfg = 23/20 := rfl
  have hb : base_rate_of c3inp c3cfg = 100 := rfl
  have hl : (30 : Int) ≤ c3inp.lead_time_days := by decide
  have hA : runSteps c3inp c3cfg [AdjStep.segment, AdjStep.demand, AdjStep.lead]
      (base_rate_of c3inp c3cfg) = 621/5 := by
    simp only [runSteps, applyStep_segment, applyStep_demand, applyStep_lead]
    unfold segment_impact_of
    rw [hm, hd, hs, hb, if_pos hl]
    norm_num
  have hB : runSteps c3inp c3cfg sourceOrder (base_rate_of c3inp c3cfg) = 123 := by
    rw [← pre_eq_runSteps]
    rw [pre_guardrail_eq, price_after_lead_eq, price_after_demand_eq]
    unfold segment_impact_of
    rw [hm, hd, hs, hb, if_pos hl]
    norm_num
  refine ⟨by decide, pre_eq_runSteps c3inp c3cfg, ?_⟩
  rw [hA, hB]
  norm_num

/-- Claim C3 amended: the demand and lead-time steps commute (swapping them
never changes the result), and the source waterfall equals the source-ordered
step sequence; only the position of the additive segment step matters. -/
theorem claim_C3_amended (inp : PriceInput) (cfg : PricingConfig) (p : ℚ) :
    runSteps inp cfg [AdjStep.lead, AdjStep.demand, AdjStep.segment] p =
      runSteps inp cfg sourceOrder p ∧
    pre_guardrail_price inp cfg = runSteps inp cfg sourceOrder (base_rate_of inp cfg) := by
  refine ⟨?_, pre_eq_runSteps inp cfg⟩
  simp only [sourceOrder, runSteps, applyStep_segment, applyStep_demand, applyStep_lead]
  split <;> ring

/-- Claim C4: the returned `final_price` is exactly the returned
`dynamic_rate` times the duration (over exact rationals). -/
theorem claim_C4_final_price (inp : PriceInput) (ctx : Ctx) (q : PriceQuote)
    (hq : calculate_dynamic_price inp ctx = Except.ok q) :
    q.final_price = q.dynamic_rate * inp.duration := by
  obtain ⟨-, rfl⟩ := (calc_ok_iff inp ctx q).mp hq
  rfl

/-- Witness for C4 at a concrete input. -/
theorem claim_C4_witness :
    calculate_dynamic_price c4winp c4wctx = Except.ok (quoteOf c4winp c4wctx) ∧
    (quoteOf c4winp c4wctx).final_price =
      (quoteOf c4winp c4wctx).dynamic_rate * c4winp.duration :=
  ⟨rfl, claim_C4_final_price c4winp c4wctx (quoteOf c4winp c4wctx) rfl⟩

/-- Claim C5: an unconfigured (asset key, time category) pair defaults the
base rate to 100, and an unconfigured segment key defaults the segment
multiplier to 1.0, so the segment step contributes 0 to the price. -/
theorem claim_C5_soft_defaults (inp : PriceInput) (cfg : PricingConfig) :
    ((dget cfg.base_rates (asset_key_of inp.asset_type) []).lookup
          (time_category_of inp.time_slot) = none →
        base_rate_of inp cfg = 100) ∧
      (cfg.segments.lookup (segment_key_of inp.customer_type) = none →
        segment_multiplier_of inp cfg = 1 ∧
          segment_impact_of inp cfg = 0 ∧
          pre_guardrail_price inp cfg = price_after_lead inp cfg) := by
  constructor
  · intro h
    unfold base_rate_of
    unfold dget
    unfold dget at h
    rw [h]
    rfl
  · intro h
    have hm : segment_multiplier_of inp cfg = 1 := by
      unfold segment_multiplier_of dget
      rw [h]
      rfl
    have hi : segment_impact_of inp cfg = 0 := by
      unfold segment_impact_of
      rw [hm]
      ring
    refine ⟨hm, hi, ?_⟩
    rw [pre_guardrail_eq, hi, add_zero]

/-- Witness for C5 at a concrete input with empty tables. -/
theorem claim_C5_witness :
    base_rate_of c5winp emptyCfg = 100 ∧ segment_impact_of c5winp emptyCfg = 0 := by
  refine ⟨(claim_C5_soft_defaults c5winp emptyCfg).1 ?_,
    ((claim_C5_soft_defaults c5winp emptyCfg).2 ?_).2.1⟩
  · rfl
  · rfl

/-- Claim C7: the demand and lead-time impacts are computed off the running
price at the moment they fire (the base rate and the demand-adjusted price,
respectively), while the segment impact is always computed off the base rate;
consequently the pre-guardrail price is the multiplicative demand/lead chain
plus the base-rate-scaled segment term. -/
theorem claim_C7_segment_asymmetry (inp : PriceInput) (cfg : PricingConfig) :
    demand_impact_of inp cfg = base_rate_of inp cfg * (demand_multiplier_of inp cfg - 1) ∧
    lead_impact_of inp cfg =
      (base_rate_of inp cfg * demand_multiplier_of inp cfg) * (lead_discount_of inp cfg - 1) ∧
    segment_impact_of inp cfg =
      base_rate_of inp cfg * (segment_multiplier_of inp cfg - 1) ∧
    pre_guardrail_price inp cfg =
      base_rate_of inp cfg * demand_multiplier_of inp cfg *
          (if 30 ≤ inp.lead_time_days then lead_discount_of inp cfg else 1) +
        base_rate_of inp cfg * (segment_multiplier_of inp cfg - 1) := by
  refine ⟨rfl, ?_, rfl, ?_⟩
  · unfold lead_impact_of
    rw [price_after_demand_eq]
  · rw [pre_guardrail_eq, price_after_lead_eq, price_after_demand_eq]
    rfl

/-- Claim C9: the state-threading embedding returns the context unchanged and
agrees with the pure calculation: the function reads the configuration tables
and never writes them. -/
theorem claim_C9_no_mutation (inp : PriceInput) (ctx : Ctx) :
    (calculate_dynamic_price_st inp ctx).2 = ctx ∧
    (calculate_dynamic_price_st inp ctx).1 = calculate_dynamic_price inp ctx :=
  ⟨rfl, rfl⟩

end SportAI

namespace SportAI

/-- Claim C6: no Early Booking factor below 30 days of lead time; at or above
30 days the longest qualifying bucket (90, then 60, then 30 days) is selected
and its discount is applied multiplicatively to the running price, with the
Early Booking factor recorded. -/
theorem claim_C6_early_booking (inp : PriceInput) (cfg : PricingConfig) (gr : Guardrails) :
    (inp.lead_time_days < 30 →
      "Early Booking" ∉ (factors_of inp cfg gr).map Factor.factor) ∧
    (90 ≤ inp.lead_time_days → lead_time_key_of inp.lead_time_days = "90_days") ∧
    (60 ≤ inp.lead_time_days → inp.lead_time_days < 90 →
      lead_time_key_of inp.lead_time_days = "60_days") ∧
    (30 ≤ inp.lead_time_days → inp.lead_time_days < 60 →
      lead_time_key_of inp.lead_time_days = "30_days") ∧
    (30 ≤ inp.lead_time_days →
      "Early Booking" ∈ (factors_of inp cfg gr).map Factor.factor ∧
      price_after_lead inp cfg = price_after_demand inp cfg * lead_discount_of inp cfg) := by
  refine ⟨?_, ?_, ?_, ?_, ?_⟩
  · intro hlt hmem
    rw [List.mem_map] at hmem
    obtain ⟨f, hf, hname⟩ := hmem
    rw [mem_factors_iff] at hf
    rcases hf with h | ⟨-, h⟩ | ⟨h30, -⟩ | ⟨-, h⟩ | ⟨-, h⟩ | h
    · subst h
      simp only [baseFactor] at hname
      exact absurd hname (by decide)
    · subst h
      simp only [demandFactor] at hname
      exact absurd hname (append_ne_of_getLast _ " Demand" "Early Booking" (by decide) (by decide))
    · exact absurd h30 (not_le.mpr hlt)
    · subst h
      simp only [segmentFactor] at hname
      exact absurd hname (append_ne_of_getLast _ " Rate" "Early Booking" (by decide) (by decide))
    · subst h
      simp only [capFactor] at hname
      exact absurd hname (by decide)
    · subst h
      simp only [finalFactor] at hname
      exact absurd hname (by decide)
  · intro h90
    unfold lead_time_key_of
    rw [if_pos h90]
  · intro h60 hlt
    unfold lead_time_key_of
    rw [if_neg (not_le.mpr hlt), if_pos h60]
  · intro h30 hlt
    unfold lead_time_key_of
    rw [if_neg (not_le.mpr (lt_of_lt_of_le hlt (by norm_num))),
      if_neg (not_le.mpr hlt)]
  · intro h30
    constructor
    · rw [List.mem_map]
      refine ⟨leadFactor inp cfg, ?_, rfl⟩
      rw [mem_factors_iff]
      exact Or.inr (Or.inr (Or.inl ⟨h30, rfl⟩))
    · rw [price_after_lead_eq, if_pos h30]

/-- Witness for C6: with only a 90-day discount configured, a 10-day input
has no Early Booking factor while a 95-day input selects the 90-day bucket,
records the factor, and multiplies the running price by the discount. -/
theorem claim_C6_witness :
    ("Early Booking" ∉ (factors_of c6winpA c6cfg defGr).map Factor.factor) ∧
    lead_time_key_of c6winpB.lead_time_days = "90_days" ∧
    "Early Booking" ∈ (factors_of c6winpB c6cfg defGr).map Factor.factor ∧
    price_after_lead c6winpB c6cfg =
      price_after_demand c6winpB c6cfg * lead_discount_of c6winpB c6cfg :=
  ⟨(claim_C6_early_booking c6winpA c6cfg defGr).1 (by decide),
   (claim_C6_early_booking c6winpB c6cfg defGr).2.1 (by decide),
   ((claim_C6_early_booking c6winpB c6cfg defGr).2.2.2.2 (by decide)).1,
   ((claim_C6_early_booking c6winpB c6cfg defGr).2.2.2.2 (by decide)).2⟩

/-- Claim C8: a Guardrail Cap factor appears in the factor list exactly when
the clamp changed the running price, and then it carries the delta
(clamped price minus pre-clamp price) as its impact. -/
theorem claim_C8_guardrail_cap (inp : PriceInput) (cfg : PricingConfig) (gr : Guardrails) :
    ("Guardrail Cap" ∈ (factors_of inp cfg gr).map Factor.factor ↔
      dynamic_rate_of inp cfg gr ≠ pre_guardrail_price inp cfg) ∧
    (dynamic_rate_of inp cfg gr ≠ pre_guardrail_price inp cfg →
      Factor.mk "Guardrail Cap"
          (dynamic_rate_of inp cfg gr - pre_guardrail_price inp cfg)
          "Price capped per policy limits" ∈ factors_of inp cfg gr) := by
  have hmk : Factor.mk "Guardrail Cap"
      (dynamic_rate_of inp cfg gr - pre_guardrail_price inp cfg)
      "Price capped per policy limits" = capFactor inp cfg gr := rfl
  constructor
  · constructor
    · intro hmem
      rw [List.mem_map] at hmem
      obtain ⟨f, hf, hname⟩ := hmem
      rw [mem_factors_iff] at hf
      rcases hf with h | ⟨-, h⟩ | ⟨-, h⟩ | ⟨-, h⟩ | ⟨hch, -⟩ | h
      · subst h
        simp only [baseFactor] at hname
        exact absurd hname (by decide)
      · subst h
        simp only [demandFactor] at hname
        exact absurd hname
          (append_ne_of_getLast _ " Demand" "Guardrail Cap" (by decide) (by decide))
      · subst h
        simp only [leadFactor] at hname
        exact absurd hname (by decide)
      · subst h
        simp only [segmentFactor] at hname
        exact absurd hname
          (append_ne_of_getLast _ " Rate" "Guardrail Cap" (by decide) (by decide))
      · exact hch
      · subst h
        simp only [finalFactor] at hname
        exact absurd hname (by decide)
    · intro hch
      rw [List.mem_map]
      refine ⟨capFactor inp cfg gr, ?_, rfl⟩
      rw [mem_factors_iff]
      exact Or.inr (Or.inr (Or.inr (Or.inr (Or.inl ⟨hch, rfl⟩))))
  · intro hch
    rw [hmk, mem_factors_iff]
    exact Or.inr (Or.inr (Or.inr (Or.inr (Or.inl ⟨hch, rfl⟩))))

/-- Witness for C8: a corporate multiplier of 1.5 pushes the running price to
150, the default 25 percent band clamps it to 125, and the Guardrail Cap
factor with delta -25 is recorded. -/
theorem claim_C8_witness :
    dynamic_rate_of c8winp c8cfg defGr ≠ pre_guardrail_price c8winp c8cfg ∧
    Factor.mk "Guardrail Cap"
        (dynamic_rate_of c8winp c8cfg defGr - pre_guardrail_price c8winp c8cfg)
        "Price capped per policy limits" ∈ factors_of c8winp c8cfg defGr := by
  have hb : base_rate_of c8winp c8cfg = 100 := rfl
  have hpre : pre_guardrail_price c8winp c8cfg = 150 := by
    rw [pre_guardrail_eq, price_after_lead_eq, price_after_demand_eq]
    have hm : demand_multiplier_of c8winp c8cfg = 1 := rfl
    have hs : segment_multiplier_of c8winp c8cfg = 3/2 := rfl
    unfold segment_impact_of
    rw [hm, hs, hb]
    have hl : ¬ (30 ≤ c8winp.lead_time_days) := by decide
    rw [if_neg hl]
    norm_num
  have hdyn : dynamic_rate_of c8winp c8cfg defGr = 125 := by
    unfold dynamic_rate_of apply_guardrails
    have hg : defGr.max_price_change_percent = none := rfl
    rw [hpre, hb, hg]
    norm_num [Option.getD_none, max_def, min_def]
  have hne : dynamic_rate_of c8winp c8cfg defGr ≠ pre_guardrail_price c8winp c8cfg := by
    rw [hdyn, hpre]
    norm_num
  exact ⟨hne, (claim_C8_guardrail_cap c8winp c8cfg defGr).2 hne⟩

/-- Claim C10: the demand and segment factor rows are omitted whenever their
impact is 0, while the Early Booking row is appended for every lead time of
at least 30 days, with no condition on its impact. -/
theorem claim_C10_zero_impact (inp : PriceInput) (cfg : PricingConfig) (gr : Guardrails) :
    (demand_impact_of inp cfg = 0 → demandFactor inp cfg ∉ factors_of inp cfg gr) ∧
    (segment_impact_of inp cfg = 0 → segmentFactor inp cfg ∉ factors_of inp cfg gr) ∧
    (30 ≤ inp.lead_time_days → leadFactor inp cfg ∈ factors_of inp cfg gr) := by
  refine ⟨?_, ?_, ?_⟩
  · intro h0 hmem
    rw [mem_factors_iff] at hmem
    rcases hmem with h | ⟨hne, -⟩ | ⟨-, h⟩ | ⟨-, h⟩ | ⟨-, h⟩ | h
    · have hname := congrArg Factor.factor h
      simp only [demandFactor, baseFactor] at hname
      exact absurd hname
        (append_ne_of_getLast _ " Demand" "Base Rate" (by decide) (by decide))
    · exact hne h0
    · have hname := congrArg Factor.factor h
      simp only [demandFactor, leadFactor] at hname
      exact absurd hname
        (append_ne_of_getLast _ " Demand" "Early Booking" (by decide) (by decide))
    · have hname := congrArg Factor.factor h
      simp only [demandFactor, segmentFactor] at hname
      exact absurd hname
        (append_ne_append_of_getLast _ " Demand" _ " Rate" (by decide) (by decide) (by decide))
    · have hname := congrArg Factor.factor h
      simp only [demandFactor, capFactor] at hname
      exact absurd hname
        (append_ne_of_getLast _ " Demand" "Guardrail Cap" (by decide) (by decide))
    · have hname := congrArg Factor.factor h
      simp only [demandFactor, finalFactor] at hname
      exact absurd hname
        (append_ne_of_getLast _ " Demand" "Final Price" (by decide) (by decide))
  · intro h0 hmem
    rw [mem_factors_iff] at hmem
    rcases hmem with h | ⟨-, h⟩ | ⟨-, h⟩ | ⟨hne, -⟩ | ⟨-, h⟩ | h
    · have hexp := congrArg Factor.explanation h
      simp only [segmentFactor, baseFactor] at hexp
      exact absurd hexp
        (append_ne_append_of_getLast _ " customer segment pricing" _ " time"
          (by decide) (by decide) (by decide))
    · have hname := congrArg Factor.factor h
      simp only [segmentFactor, demandFactor] at hname
      exact absurd hname
        (append_ne_append_of_getLast _ " Rate" _ " Demand" (by decide) (by decide) (by decide))
    · have hname := congrArg Factor.factor h
      simp only [segmentFactor, leadFactor] at hname
      exact absurd hname
        (append_ne_of_getLast _ " Rate" "Early Booking" (by decide) (by decide))
    · exact hne h0
    · have hname := congrArg Factor.factor h
      simp only [segmentFactor, capFactor] at hname
      exact absurd hname
        (append_ne_of_getLast _ " Rate" "Guardrail Cap" (by decide) (by decide))
    · have hexp := congrArg Factor.explanation h
      simp only [segmentFactor, finalFactor] at hexp
      exact absurd hexp
        (append_ne_append_of_getLast _ " customer segment pricing" _ "/hr"
          (by decide) (by decide) (by decide))
  · intro h30
    rw [mem_factors_iff]
    exact Or.inr (Or.inr (Or.inl ⟨h30, rfl⟩))

/-- Witness for C10: with empty tables and 45 days of lead time, the demand,
segment and lead-time impacts are all 0, the demand and segment rows are
absent, and the Early Booking row is present with impact 0. -/
theorem claim_C10_witness :
    demand_impact_of c10winp emptyCfg = 0 ∧
    segment_impact_of c10winp emptyCfg = 0 ∧
    lead_impact_of c10winp emptyCfg = 0 ∧
    demandFactor c10winp emptyCfg ∉ factors_of c10winp emptyCfg defGr ∧
    segmentFactor c10winp emptyCfg ∉ factors_of c10winp emptyCfg defGr ∧
    leadFactor c10winp emptyCfg ∈ factors_of c10winp emptyCfg defGr := by
  have hd : demand_impact_of c10winp emptyCfg = 0 := by
    unfold demand_impact_of
    have hm : demand_multiplier_of c10winp emptyCfg = 1 := rfl
    rw [hm]
    ring
  have hs : segment_impact_of c10winp emptyCfg = 0 := by
    unfold segment_impact_of
    have hm : segment_multiplier_of c10winp emptyCfg = 1 := rfl
    rw [hm]
    ring
  have hlz : lead_impact_of c10winp emptyCfg = 0 := by
    unfold lead_impact_of
    have hq : lead_discount_of c10winp emptyCfg = 1 := rfl
    rw [hq]
    ring
  exact ⟨hd, hs, hlz,
    (claim_C10_zero_impact c10winp emptyCfg defGr).1 hd,
    (claim_C10_zero_impact c10winp emptyCfg defGr).2.1 hs,
    (claim_C10_zero_impact c10winp emptyCfg defGr).2.2 (by decide)⟩

end SportAI
